import Mathlib

/-!
Verification of the career-search search-orchestration endpoint.

The development shallowly embeds the server route of the repository:

 * the organic-result classification pipeline of getSerpResults
   (job-board filtering, domain to category table, relevance and trust
   scoring, access-type table, sorting and truncation);
 * the POST handler of the most complete route variant (SerpAPI plus two
   AI enrichment calls merged with allSettled and documented fallbacks);
 * the POST handler of the LRU-cached route variant (normalized cache
   key, one-hour TTL, capacity 100).

External HTTP calls are modelled by their settled outcomes, passed to the
handlers as explicit values; JavaScript strings are modelled by Lean
strings, with substring search, ASCII lower-casing and whitespace
trimming reimplemented executably over character lists.
-/

namespace CareerSearch

/-- Character-list test that pat occurs at the head of s; used to build the
substring test that models the JavaScript String.prototype.includes. -/
def startsWithChars : List Char → List Char → Bool
  | _, [] => true
  | [], _ :: _ => false
  | c :: cs, p :: ps => c == p && startsWithChars cs ps

/-- Character-list substring occurrence test. -/
def hasSubstrChars : List Char → List Char → Bool
  | [], p => startsWithChars [] p
  | c :: cs, p => startsWithChars (c :: cs) p || hasSubstrChars cs p

/-- Model of the JavaScript s.includes(pat). -/
def strContains (s pat : String) : Bool := hasSubstrChars s.toList pat.toList

/-- ASCII lower-casing of one character, modelling toLowerCase on the
ASCII queries the route handles. -/
def asciiLower (c : Char) : Char :=
  if c.toNat ≥ 65 && c.toNat ≤ 90 then Char.ofNat (c.toNat + 32) else c

/-- Whitespace test used by the trim model. -/
def isWsChar (c : Char) : Bool := c == ' ' || c == '\t' || c == '\n' || c == '\r'

/-- Model of the JavaScript String.prototype.trim over character lists. -/
def trimChars (cs : List Char) : List Char :=
  ((cs.dropWhile isWsChar).reverse.dropWhile isWsChar).reverse

/-- Cache key of the cached route variant: query.toLowerCase().trim(). -/
def cacheKeyOf (s : String) : List Char := trimChars (s.toList.map asciiLower)

/-- Access type of a website recommendation, from the route type
WebsiteRecommendation. -/
inductive AccessType where
  | free
  | premium
  | registration
  | unknown
deriving DecidableEq

/-- One organic result of the search provider (type SerpAPIOrganicResult
in the route). -/
structure OrganicResult where
  position : Option Nat
  title : String
  link : String
  snippet : String
deriving DecidableEq

/-- Website recommendation as built by getSerpResults. The lastUpdated
field of the source is the wall-clock date of the request and carries no
information about the inputs, so it is not modelled. -/
structure WebsiteRecommendation where
  title : String
  url : String
  description : String
  category : String
  relevanceScore : Int
  trustScore : Int
  features : List String
  isPremium : Bool
  isClickable : Bool
  accessType : AccessType
deriving DecidableEq

/-- Job-board filter of getSerpResults: results whose link contains one of
the three job-board patterns are skipped. -/
def isJobBoardLink (link : String) : Bool :=
  strContains link "linkedin.com/jobs" || strContains link "indeed.com" ||
    strContains link "glassdoor.com/Job"

/-- Category assignment of getSerpResults: ordered domain table, first
match wins, default Resource. -/
def categoryOf (link : String) : String :=
  if strContains link "medium.com" || strContains link "dev.to" then "Tech Blog"
  else if strContains link "github.com" then "Code Repository"
  else if strContains link "stackoverflow.com" then "Q&A Forum"
  else if strContains link "coursera.org" || strContains link "udemy.com" then "Learning Platform"
  else if strContains link "wikipedia.org" then "Reference"
  else "Resource"

/-- Relevance score of getSerpResults:
Math.max(100 - (result.position or 0) * 5, 50). -/
def relevanceScoreOf (position : Option Nat) : Int :=
  max (100 - ((position.getD 0 : Nat) : Int) * 5) 50

/-- Trust score of getSerpResults: static domain-tier table. -/
def trustScoreOf (link : String) : Int :=
  if strContains link "github.com" || strContains link "stackoverflow.com" ||
      strContains link "wikipedia.org" then 90
  else if strContains link "medium.com" || strContains link "dev.to" ||
      strContains link "coursera.org" then 80
  else 70

/-- Access-type assignment of getSerpResults: ordered domain table. -/
def accessTypeOf (link : String) : AccessType :=
  if strContains link "medium.com" then .premium
  else if strContains link "coursera.org" || strContains link "udemy.com" then .premium
  else if strContains link "github.com" || strContains link "stackoverflow.com" ||
      strContains link "wikipedia.org" then .free
  else if strContains link "dev.to" then .registration
  else .unknown

/-- The isPremium flag of getSerpResults. -/
def isPremiumOf (link : String) : Bool :=
  strContains link "medium.com" || strContains link "udemy.com" ||
    strContains link "coursera.org"

/-- Feature extraction of getSerpResults: fixed vocabulary matched against
the lower-cased snippet. -/
def featuresOf (snippet : String) : List String :=
  let low := String.mk (snippet.toList.map asciiLower)
  (if strContains low "guide" then ["Guide"] else []) ++
  (if strContains low "tutorial" then ["Tutorial"] else []) ++
  (if strContains low "course" then ["Course"] else []) ++
  (if strContains low "article" then ["Article"] else []) ++
  (if strContains low "documentation" then ["Documentation"] else [])

/-- The recommendation getSerpResults pushes for one retained organic
result. The source initializes isClickable to true and every branch keeps
it true. -/
def buildRecommendation (r : OrganicResult) : WebsiteRecommendation :=
  { title := r.title
    url := r.link
    description := r.snippet
    category := categoryOf r.link
    relevanceScore := relevanceScoreOf r.position
    trustScore := trustScoreOf r.link
    features := featuresOf r.snippet
    isPremium := isPremiumOf r.link
    isClickable := true
    accessType := accessTypeOf r.link }

/-- Descending relevance order used by the sort comparator
(a, b) => b.relevanceScore - a.relevanceScore. -/
def recLE (a b : WebsiteRecommendation) : Prop :=
  b.relevanceScore ≤ a.relevanceScore

instance : DecidableRel recLE :=
  fun a b => inferInstanceAs (Decidable (b.relevanceScore ≤ a.relevanceScore))

instance : IsTotal WebsiteRecommendation recLE :=
  ⟨fun a b => le_total b.relevanceScore a.relevanceScore⟩

instance : IsTrans WebsiteRecommendation recLE :=
  ⟨fun _ _ _ h1 h2 => le_trans h2 h1⟩

/-- The filtered, classified and sorted recommendation list of
getSerpResults, before truncation. -/
def websiteRecommendationsOf (rs : List OrganicResult) : List WebsiteRecommendation :=
  List.insertionSort recLE
    ((rs.filter (fun r => !isJobBoardLink r.link)).map buildRecommendation)

/-- Recommendation list returned by getSerpResults in the most complete
route variant: sorted and sliced to 10. -/
def getSerpResults_recommendations (rs : List OrganicResult) : List WebsiteRecommendation :=
  (websiteRecommendationsOf rs).take 10

/-- Recommendation list returned by getSerpResults in the job-listing
route variant: the same pipeline sliced to 6. -/
def getSerpResultsJobVariant_recommendations (rs : List OrganicResult) :
    List WebsiteRecommendation :=
  (websiteRecommendationsOf rs).take 6

/-- Search metadata of the SerpAPIResponse type. -/
structure SearchMetadata where
  totalResults : Int
  searchTime : Int
  cacheHit : Bool
  apiVersion : String
deriving DecidableEq

/-- Value of a fulfilled getSerpResults call (type SerpAPIResponse). -/
structure SerpAPIResponse where
  websiteRecommendations : List WebsiteRecommendation
  searchMetadata : SearchMetadata
deriving DecidableEq

/-- JSON value standing for the query field of the request body. -/
inductive JVal where
  | jnull
  | jstr (s : String)
  | jnum (n : Int)
  | jbool (b : Bool)
deriving DecidableEq

/-- Parsed request body; none models a missing query field. The filters
and userProfile fields are forwarded opaquely to the providers and do not
influence the control flow, so they are not modelled. -/
structure Body where
  query : Option JVal
deriving DecidableEq

/-- The validation test of the handler, the negation of
(not query or typeof query is not string): the query field is present,
truthy and a string, hence a non-empty string. -/
def queryValid : Option JVal → Bool
  | some (.jstr s) => s != ""
  | _ => false

/-- JavaScript truthiness of an environment variable: configured means
present and non-empty. -/
def keyConfigured : Option String → Bool
  | none => false
  | some s => s != ""

/-- Nested records of MarketInsights. -/
structure Company where
  name : String
  jobCount : Int
  avgSalary : Option String
deriving DecidableEq

structure SkillDemand where
  skill : String
  demandScore : Int
  growthRate : String
deriving DecidableEq

structure LocationInsight where
  city : String
  jobCount : Int
  avgSalary : String
deriving DecidableEq

structure IndustryShare where
  industry : String
  percentage : Int
deriving DecidableEq

/-- The MarketInsights type of the route. The three string enums are kept
as strings, as produced by best-effort JSON parsing in the source. -/
structure MarketInsights where
  demandTrend : String
  trendPercentage : Int
  averageSalary : String
  salaryTrend : String
  topCompanies : List Company
  requiredSkills : List SkillDemand
  jobGrowthRate : String
  locationInsights : List LocationInsight
  industryBreakdown : List IndustryShare
deriving DecidableEq

/-- The qualitative insight record returned by generateInsights. -/
structure CareerInsights where
  practicalGuides : List String
  theoreticalInsight : String
  contradictoryTake : String
  relatedSearches : List String
deriving DecidableEq

/-- The fallback MarketInsights structure of getMarketInsights, also used
by the handler when the settled value is null. -/
def fallbackMarketInsights : MarketInsights :=
  { demandTrend := "stable"
    trendPercentage := 0
    averageSalary := "Not available"
    salaryTrend := "stable"
    topCompanies := []
    requiredSkills := []
    jobGrowthRate := "N/A"
    locationInsights := []
    industryBreakdown := [] }

/-- The fallback insight structure of generateInsights, also used by the
handler when the settled value is null. -/
def fallbackCareerInsights : CareerInsights :=
  { practicalGuides := []
    theoreticalInsight := ""
    contradictoryTake := ""
    relatedSearches := [] }

/-- Settled outcomes of the three upstream calls of one request. An error
on the serp side is the rejection reason message; an error on a
completion side stands for a rejected call or unparseable content. -/
structure UpstreamOutcomes where
  serp : Except String SerpAPIResponse
  marketRaw : Except Unit MarketInsights
  insightsRaw : Except Unit CareerInsights

/-- getMarketInsights: parse the completion on success, return the
fallback structure on any failure (the source catches internally). -/
def getMarketInsights : Except Unit MarketInsights → MarketInsights
  | .ok v => v
  | .error _ => fallbackMarketInsights

/-- generateInsights: parse the completion on success, return the
fallback structure on any failure (the source catches internally). -/
def generateInsights : Except Unit CareerInsights → CareerInsights
  | .ok v => v
  | .error _ => fallbackCareerInsights

/-- Status object of the SearchResponse. -/
structure ResponseStatus where
  phase : String
  message : String
  progress : Int
deriving DecidableEq

/-- The SearchResponse data payload of the most complete route variant. -/
structure SearchResponse where
  practicalGuides : List String
  theoreticalInsight : String
  contradictoryTake : String
  marketInsights : MarketInsights
  recommendedWebsites : List WebsiteRecommendation
  relatedSearches : List String
  searchMetadata : SearchMetadata
  status : ResponseStatus
deriving DecidableEq

/-- HTTP response envelope produced by the handler: status code plus the
optional JSON fields the source writes. -/
structure ApiResponse where
  status : Nat
  success : Option Bool
  error : Option String
  data : Option SearchResponse
  warnings : Option String
deriving DecidableEq

/-- Environment configuration read by the route module. -/
structure Env where
  serpApiKey : Option String
  openaiApiKey : Option String
deriving DecidableEq

/-- Result of one handler run: the response plus whether the search
provider and the completion provider were invoked. -/
structure PostOutcome where
  response : ApiResponse
  serpCalled : Bool
  aiCalled : Bool
deriving DecidableEq

/-- The 400 validation response of the handler. -/
def validationErrorResponse : ApiResponse :=
  { status := 400
    success := none
    error := some "Query is required and must be a string"
    data := none
    warnings := none }

/-- The 500 configuration response of the handler. -/
def configErrorResponse : ApiResponse :=
  { status := 500
    success := none
    error := some "SerpAPI key is not configured"
    data := none
    warnings := none }

/-- The POST handler of the most complete route variant: validation, key
checks, allSettled fan-out, merge with fallbacks,
success or upstream-failure envelope. -/
def POST (env : Env) (body : Body) (up : UpstreamOutcomes) : PostOutcome :=
  if queryValid body.query then
    if keyConfigured env.serpApiKey then
      let aiOn := keyConfigured env.openaiApiKey
      match up.serp with
      | .error msg =>
        { response :=
            { status := 500
              success := some false
              error := some ("SerpAPI search failed: " ++ msg)
              data := none
              warnings := none }
          serpCalled := true
          aiCalled := aiOn }
      | .ok serpResults =>
        let marketInsights :=
          if aiOn then getMarketInsights up.marketRaw else fallbackMarketInsights
        let insights :=
          if aiOn then generateInsights up.insightsRaw else fallbackCareerInsights
        let data : SearchResponse :=
          { practicalGuides := insights.practicalGuides
            theoreticalInsight := insights.theoreticalInsight
            contradictoryTake := insights.contradictoryTake
            marketInsights := marketInsights
            recommendedWebsites := serpResults.websiteRecommendations
            relatedSearches := insights.relatedSearches
            searchMetadata := serpResults.searchMetadata
            status :=
              { phase := "complete"
                message :=
                  if aiOn then "Search and analysis complete"
                  else "Search complete (AI skipped)"
                progress := 100 } }
        { response :=
            { status := 200
              success := some true
              error := none
              data := some data
              warnings :=
                if aiOn then none
                else some "OpenAI API key not configured. AI insights are skipped." }
          serpCalled := true
          aiCalled := aiOn }
    else
      { response := configErrorResponse, serpCalled := false, aiCalled := false }
  else
    { response := validationErrorResponse, serpCalled := false, aiCalled := false }

/-- Website recommendation of the LRU-cached route variant (AI-curated,
five fields). -/
structure CachedRec where
  title : String
  url : String
  description : String
  category : String
  relevanceScore : Int
deriving DecidableEq

/-- Parsed insight object of the cached route variant. -/
structure CachedInsights where
  practicalGuides : List String
  theoreticalInsight : String
  contradictoryTake : String
deriving DecidableEq

/-- SearchResponse of the cached route variant: spread of the parsed
insights, the recommendation list and the status object. -/
structure CachedSearchResponse where
  practicalGuides : List String
  theoreticalInsight : String
  contradictoryTake : String
  recommendedWebsites : List CachedRec
  statusPhase : String
  statusMessage : String
  statusProgress : Int
deriving DecidableEq

/-- One entry of the LRU cache, most recently used first in the entry
list; insertedAt is the insertion clock in milliseconds. -/
structure CacheEntry where
  key : List Char
  value : CachedSearchResponse
  insertedAt : Nat
deriving DecidableEq

/-- TTL of the cache: 1000 * 60 * 60 milliseconds. -/
def cacheTTL : Nat := 1000 * 60 * 60

/-- Capacity of the cache: 100 entries. -/
def cacheMax : Nat := 100

/-- Cache lookup: a live entry is returned and refreshed to most
recently used; an expired entry is purged and reported as a miss. -/
def cacheGet (entries : List CacheEntry) (k : List Char) (now : Nat) :
    Option CachedSearchResponse × List CacheEntry :=
  match entries.find? (fun e => e.key == k) with
  | none => (none, entries)
  | some e =>
    if now < e.insertedAt + cacheTTL then
      (some e.value, e :: entries.filter (fun e2 => !(e2.key == k)))
    else
      (none, entries.filter (fun e2 => !(e2.key == k)))

/-- Cache insertion: the new entry becomes most recently used and the
list is clipped to the capacity, evicting the least recently used. -/
def cacheSet (entries : List CacheEntry) (k : List Char) (v : CachedSearchResponse)
    (now : Nat) : List CacheEntry :=
  ({ key := k, value := v, insertedAt := now } :: entries.filter (fun e => !(e.key == k))).take
    cacheMax

/-- Settled outcomes of the two provider tasks of the cached route. A
failure of the website task is absorbed to an empty list by the handler;
a failure of the insights task aborts the request. -/
structure CachedOracle where
  websites : Except Unit (List CachedRec)
  insights : Except Unit CachedInsights

/-- HTTP response envelope of the cached route variant. -/
structure CachedApiResponse where
  status : Nat
  success : Option Bool
  error : Option String
  data : Option CachedSearchResponse
  cached : Option Bool
deriving DecidableEq

/-- Result of one cached-route handler run: response, cache state after
the run, and whether any provider task was launched. -/
structure CachedPostOutcome where
  response : CachedApiResponse
  cache : List CacheEntry
  providerCalls : Bool
deriving DecidableEq

/-- The 400 validation envelope of the cached route. -/
def cachedValidationError : CachedApiResponse :=
  { status := 400
    success := none
    error := some "Query is required and must be a string"
    data := none
    cached := none }

/-- Absorption of a failed website task to an empty list, as the handler
catch does. -/
def absorbWebsites : Except Unit (List CachedRec) → List CachedRec
  | .ok ws => ws
  | .error _ => []

/-- The SearchResponse the cached handler assembles on a miss from the
parsed insights and the (possibly absorbed) website list. -/
def builtResponse (o : CachedOracle) (ins : CachedInsights) : CachedSearchResponse :=
  { practicalGuides := ins.practicalGuides
    theoreticalInsight := ins.theoreticalInsight
    contradictoryTake := ins.contradictoryTake
    recommendedWebsites := absorbWebsites o.websites
    statusPhase := "complete"
    statusMessage := "Search completed successfully"
    statusProgress := 100 }

/-- The POST handler of the LRU-cached route variant: validation,
normalized cache lookup, provider fan-out on a miss, cache store on
success. -/
def cachedPOST (cache : List CacheEntry) (body : Body) (now : Nat)
    (o : CachedOracle) : CachedPostOutcome :=
  match body.query with
  | some (.jstr s) =>
    if s == "" then
      { response := cachedValidationError, cache := cache, providerCalls := false }
    else
      let k := cacheKeyOf s
      let g := cacheGet cache k now
      match g.1 with
      | some v =>
        { response :=
            { status := 200, success := some true, error := none
              data := some v, cached := some true }
          cache := g.2
          providerCalls := false }
      | none =>
        match o.insights with
        | .error _ =>
          { response :=
              { status := 500, success := some false
                error := some "An error occurred during the search"
                data := none, cached := none }
            cache := g.2
            providerCalls := true }
        | .ok ins =>
          let resp := builtResponse o ins
          { response :=
              { status := 200, success := some true, error := none
                data := some resp, cached := some false }
            cache := cacheSet g.2 k resp now
            providerCalls := true }
  | _ =>
    { response := cachedValidationError, cache := cache, providerCalls := false }

/-- Every member of the sorted recommendation list comes from a retained
organic result via buildRecommendation. -/
theorem mem_websiteRecommendationsOf {rs : List OrganicResult} {w : WebsiteRecommendation}
    (hw : w ∈ websiteRecommendationsOf rs) :
    ∃ r ∈ rs, isJobBoardLink r.link = false ∧ w = buildRecommendation r := by
  have h2 : w ∈ (rs.filter (fun r => !isJobBoardLink r.link)).map buildRecommendation :=
    (List.perm_insertionSort recLE _).mem_iff.mp hw
  obtain ⟨r, hr, hb⟩ := List.mem_map.mp h2
  obtain ⟨hrs, hp⟩ := List.mem_filter.mp hr
  exact ⟨r, hrs, by simpa using hp, hb.symm⟩

/-- Claim C9: no recommendation built from an organic result whose URL
matches a job-board pattern (linkedin.com/jobs, indeed.com,
glassdoor.com/Job) appears in the output of getSerpResults. -/
theorem job_board_results_never_output (rs : List OrganicResult) (w : WebsiteRecommendation)
    (hw : w ∈ getSerpResults_recommendations rs) :
    isJobBoardLink w.url = false := by
  have h1 : w ∈ websiteRecommendationsOf rs := List.take_subset _ _ hw
  obtain ⟨r, _, hfree, hb⟩ := mem_websiteRecommendationsOf h1
  subst hb
  exact hfree

/-- Sample organic result pointing at a GitHub page. -/
def orgGit : OrganicResult :=
  { position := some 0
    title := "GitHub career topics"
    link := "https://github.com/topics/career"
    snippet := "A guide to career repositories" }

/-- Witness for claim C9 at a concrete input. -/
theorem job_board_results_never_output_witness :
    buildRecommendation orgGit ∈ getSerpResults_recommendations [orgGit] ∧
    isJobBoardLink (buildRecommendation orgGit).url = false :=
  ⟨by decide, job_board_results_never_output [orgGit] _ (by decide)⟩

/-- Claim C8: the recommendation list of getSerpResults is sorted in
descending relevanceScore order and is capped at 10 entries in the most
complete variant and 6 in the job-listing variant. -/
theorem recommendations_sorted_and_capped (rs : List OrganicResult) :
    List.Sorted recLE (getSerpResults_recommendations rs) ∧
    (getSerpResults_recommendations rs).length ≤ 10 ∧
    List.Sorted recLE (getSerpResultsJobVariant_recommendations rs) ∧
    (getSerpResultsJobVariant_recommendations rs).length ≤ 6 := by
  refine ⟨?_, ?_, ?_, ?_⟩
  · exact List.Pairwise.sublist (List.take_sublist _ _) (List.sorted_insertionSort _ _)
  · exact List.length_take_le _ _
  · exact List.Pairwise.sublist (List.take_sublist _ _) (List.sorted_insertionSort _ _)
  · exact List.length_take_le _ _

/-- Claim C6: the relevance score is max(100 - 5 * position, 50) over the
position field with default 0; positions 0 to 4 produce the sequence
100, 95, 90, 85, 80, and every position of at least 10 produces 50. -/
theorem relevance_score_linear_decay (r : OrganicResult) (p : Nat) (hp : 10 ≤ p) :
    (buildRecommendation r).relevanceScore =
      max (100 - 5 * ((r.position.getD 0 : Nat) : Int)) 50 ∧
    ([0, 1, 2, 3, 4].map (fun i => relevanceScoreOf (some i)) =
      [100, 95, 90, 85, 80]) ∧
    relevanceScoreOf (some p) = 50 := by
  refine ⟨?_, by decide, ?_⟩
  · simp [buildRecommendation, relevanceScoreOf, Int.mul_comm]
  · simp only [relevanceScoreOf, Option.getD_some]
    omega

/-- Witness for claim C6 at a concrete input. -/
theorem relevance_score_linear_decay_witness :
    10 ≤ 12 ∧
    ((buildRecommendation orgGit).relevanceScore =
        max (100 - 5 * ((orgGit.position.getD 0 : Nat) : Int)) 50 ∧
      ([0, 1, 2, 3, 4].map (fun i => relevanceScoreOf (some i)) =
        [100, 95, 90, 85, 80]) ∧
      relevanceScoreOf (some 12) = 50) :=
  ⟨by decide, relevance_score_linear_decay orgGit 12 (by decide)⟩

/-- Claim C7 counterexample: a URL containing both medium.com and
github.com is categorized by the earlier medium.com rule, so the claim
that any URL containing github.com is categorized Code Repository fails
on this input. -/
theorem category_github_universal_counterexample :
    strContains "https://medium.com/p/github.com-tips" "github.com" = true ∧
    categoryOf "https://medium.com/p/github.com-tips" = "Tech Blog" ∧
    ¬ categoryOf "https://medium.com/p/github.com-tips" = "Code Repository" := by
  decide

/-- Claim C7 as amended: category comes from the ordered first-match
domain table with default Resource, so a github.com URL matching no
earlier rule is Code Repository, a coursera.org URL matching no earlier
rule is Learning Platform; trustScore 90 for github.com and isPremium for
coursera.org hold without that restriction. -/
theorem domain_classification_first_match (link : String) :
    (strContains link "github.com" = true → strContains link "medium.com" = false →
      strContains link "dev.to" = false → categoryOf link = "Code Repository") ∧
    (strContains link "github.com" = true → trustScoreOf link = 90) ∧
    (strContains link "coursera.org" = true → strContains link "medium.com" = false →
      strContains link "dev.to" = false → strContains link "github.com" = false →
      strContains link "stackoverflow.com" = false →
      categoryOf link = "Learning Platform") ∧
    (strContains link "coursera.org" = true → isPremiumOf link = true) ∧
    (strContains link "medium.com" = false → strContains link "dev.to" = false →
      strContains link "github.com" = false →
      strContains link "stackoverflow.com" = false →
      strContains link "coursera.org" = false → strContains link "udemy.com" = false →
      strContains link "wikipedia.org" = false → categoryOf link = "Resource") := by
  simp only [categoryOf, trustScoreOf, isPremiumOf]
  generalize strContains link "medium.com" = m
  generalize strContains link "dev.to" = d
  generalize strContains link "github.com" = g
  generalize strContains link "stackoverflow.com" = q
  generalize strContains link "coursera.org" = c
  generalize strContains link "udemy.com" = u
  generalize strContains link "wikipedia.org" = w
  cases m <;> cases d <;> cases g <;> cases q <;> cases c <;> cases u <;> cases w <;> simp

/-- Witness for the amended claim C7 at concrete inputs. -/
theorem domain_classification_first_match_witness :
    categoryOf "https://github.com/topics/career" = "Code Repository" ∧
    trustScoreOf "https://github.com/topics/career" = 90 ∧
    categoryOf "https://www.coursera.org/learn/x" = "Learning Platform" ∧
    isPremiumOf "https://www.coursera.org/learn/x" = true :=
  ⟨(domain_classification_first_match _).1 (by decide) (by decide) (by decide),
    (domain_classification_first_match _).2.1 (by decide),
    (domain_classification_first_match _).2.2.1 (by decide) (by decide) (by decide)
      (by decide) (by decide),
    (domain_classification_first_match _).2.2.2.1 (by decide)⟩

/-- Claim C10 counterexample: a URL containing both medium.com and dev.to
is assigned accessType premium with isPremium true by the earlier
medium.com rule, so the claim that dev.to URLs get registration with
isPremium false fails on this input. -/
theorem access_type_universal_counterexample :
    strContains "https://medium.com/about-dev.to" "dev.to" = true ∧
    accessTypeOf "https://medium.com/about-dev.to" = AccessType.premium ∧
    isPremiumOf "https://medium.com/about-dev.to" = true := by
  decide

/-- Claim C10 as amended: every recommendation satisfies the invariant
isPremium iff accessType premium, isPremium holds exactly when the URL
contains medium.com, udemy.com or coursera.org, and the free,
registration and unknown rows of the access table apply to URLs matching
no earlier row of the first-match chain. -/
theorem premium_access_invariant (r : OrganicResult) :
    ((buildRecommendation r).isPremium = true ↔
      (buildRecommendation r).accessType = AccessType.premium) ∧
    ((buildRecommendation r).isPremium = true ↔
      (strContains r.link "medium.com" = true ∨ strContains r.link "udemy.com" = true ∨
        strContains r.link "coursera.org" = true)) ∧
    ((strContains r.link "github.com" = true ∨
        strContains r.link "stackoverflow.com" = true ∨
        strContains r.link "wikipedia.org" = true) →
      strContains r.link "medium.com" = false →
      strContains r.link "coursera.org" = false →
      strContains r.link "udemy.com" = false →
      (buildRecommendation r).accessType = AccessType.free) ∧
    (strContains r.link "dev.to" = true →
      strContains r.link "medium.com" = false →
      strContains r.link "coursera.org" = false →
      strContains r.link "udemy.com" = false →
      strContains r.link "github.com" = false →
      strContains r.link "stackoverflow.com" = false →
      strContains r.link "wikipedia.org" = false →
      (buildRecommendation r).accessType = AccessType.registration) ∧
    (strContains r.link "medium.com" = false →
      strContains r.link "coursera.org" = false →
      strContains r.link "udemy.com" = false →
      strContains r.link "github.com" = false →
      strContains r.link "stackoverflow.com" = false →
      strContains r.link "wikipedia.org" = false →
      strContains r.link "dev.to" = false →
      (buildRecommendation r).accessType = AccessType.unknown) := by
  simp only [buildRecommendation, accessTypeOf, isPremiumOf]
  generalize strContains r.link "medium.com" = m
  generalize strContains r.link "coursera.org" = c
  generalize strContains r.link "udemy.com" = u
  generalize strContains r.link "github.com" = g
  generalize strContains r.link "stackoverflow.com" = q
  generalize strContains r.link "wikipedia.org" = w
  generalize strContains r.link "dev.to" = d
  cases m <;> cases c <;> cases u <;> cases g <;> cases q <;> cases w <;> cases d <;> simp

/-- Witness for the amended claim C10 at a concrete input. -/
theorem premium_access_invariant_witness :
    ((buildRecommendation orgGit).isPremium = true ↔
      (buildRecommendation orgGit).accessType = AccessType.premium) ∧
    (buildRecommendation orgGit).accessType = AccessType.free :=
  ⟨(premium_access_invariant orgGit).1,
    (premium_access_invariant orgGit).2.2.1 (Or.inl (by decide)) (by decide) (by decide)
      (by decide)⟩

/-- Sample environment with both provider keys configured. -/
def envBoth : Env := { serpApiKey := some "serp-key", openaiApiKey := some "openai-key" }

/-- Sample environment without the AI provider key. -/
def envNoAI : Env := { serpApiKey := some "serp-key", openaiApiKey := none }

/-- Sample environment without the search provider key. -/
def envNoSerp : Env := { serpApiKey := none, openaiApiKey := some "openai-key" }

/-- Sample valid request body. -/
def bodyQ : Body := { query := some (.jstr "software engineer") }

/-- Sample search metadata. -/
def metaEx : SearchMetadata :=
  { totalResults := 1, searchTime := 1, cacheHit := false, apiVersion := "1.0.0" }

/-- Sample fulfilled search-provider response. -/
def serpOkEx : SerpAPIResponse :=
  { websiteRecommendations := [buildRecommendation orgGit], searchMetadata := metaEx }

/-- Sample outcomes: search fulfilled, both completion calls failed. -/
def upAIFail : UpstreamOutcomes :=
  { serp := .ok serpOkEx, marketRaw := .error (), insightsRaw := .error () }

/-- Sample outcomes: search rejected, both completion calls failed. -/
def upSerpFail : UpstreamOutcomes :=
  { serp := .error "network down", marketRaw := .error (), insightsRaw := .error () }

/-- Sample outcomes: all three calls fulfilled. -/
def upAllOk : UpstreamOutcomes :=
  { serp := .ok serpOkEx, marketRaw := .ok fallbackMarketInsights,
    insightsRaw := .ok fallbackCareerInsights }

/-- Claim C1 counterexample: with the AI key configured, the search call
fulfilled and both completion calls failed, the handler does return
success true with fallback insights, but the warnings field is absent
rather than a non-empty string, because the source sets warnings only
when the AI key is not configured. -/
theorem warnings_absent_on_completion_failure :
    (POST envBoth bodyQ upAIFail).response.success = some true ∧
    (POST envBoth bodyQ upAIFail).response.status = 200 ∧
    (POST envBoth bodyQ upAIFail).response.data =
      some
        { practicalGuides := []
          theoreticalInsight := ""
          contradictoryTake := ""
          marketInsights := fallbackMarketInsights
          recommendedWebsites := serpOkEx.websiteRecommendations
          relatedSearches := []
          searchMetadata := serpOkEx.searchMetadata
          status :=
            { phase := "complete", message := "Search and analysis complete", progress := 100 } } ∧
    (POST envBoth bodyQ upAIFail).response.warnings = none := by
  decide

/-- Claim C1 as amended: when the search call succeeds and both
completion calls fail, the response is success true with the fetched
recommendations and the documented fallback insight values, and the
warnings field is absent (warnings is set only when the AI credential is
not configured). -/
theorem completion_failure_soft_fallback (env : Env) (body : Body) (up : UpstreamOutcomes)
    (s : SerpAPIResponse)
    (hq : queryValid body.query = true)
    (hserp : keyConfigured env.serpApiKey = true)
    (hai : keyConfigured env.openaiApiKey = true)
    (hok : up.serp = .ok s)
    (hm : up.marketRaw = .error ())
    (hi : up.insightsRaw = .error ()) :
    (POST env body up).response.status = 200 ∧
    (POST env body up).response.success = some true ∧
    (POST env body up).response.data =
      some
        { practicalGuides := []
          theoreticalInsight := ""
          contradictoryTake := ""
          marketInsights := fallbackMarketInsights
          recommendedWebsites := s.websiteRecommendations
          relatedSearches := []
          searchMetadata := s.searchMetadata
          status :=
            { phase := "complete", message := "Search and analysis complete", progress := 100 } } ∧
    (POST env body up).response.warnings = none := by
  simp [POST, hq, hserp, hai, hok, hm, hi, getMarketInsights, generateInsights,
    fallbackCareerInsights]

/-- Witness for the amended claim C1 at a concrete input. -/
theorem completion_failure_soft_fallback_witness :
    (POST envBoth bodyQ upAIFail).response.status = 200 ∧
    (POST envBoth bodyQ upAIFail).response.success = some true ∧
    (POST envBoth bodyQ upAIFail).response.data =
      some
        { practicalGuides := []
          theoreticalInsight := ""
          contradictoryTake := ""
          marketInsights := fallbackMarketInsights
          recommendedWebsites := serpOkEx.websiteRecommendations
          relatedSearches := []
          searchMetadata := serpOkEx.searchMetadata
          status :=
            { phase := "complete", message := "Search and analysis complete", progress := 100 } } ∧
    (POST envBoth bodyQ upAIFail).response.warnings = none :=
  completion_failure_soft_fallback envBoth bodyQ upAIFail serpOkEx (by decide) (by decide)
    (by decide) rfl rfl rfl

/-- Claim C2: when the search call rejects, the handler returns status
500 with success false, whatever the completion outcomes are. -/
theorem serp_failure_is_hard_failure (env : Env) (body : Body) (up : UpstreamOutcomes)
    (msg : String)
    (hq : queryValid body.query = true)
    (hserp : keyConfigured env.serpApiKey = true)
    (hfail : up.serp = .error msg) :
    (POST env body up).response.status = 500 ∧
    (POST env body up).response.success = some false := by
  simp [POST, hq, hserp, hfail]

/-- Witness for claim C2 at a concrete input. -/
theorem serp_failure_is_hard_failure_witness :
    (POST envBoth bodyQ upSerpFail).response.status = 500 ∧
    (POST envBoth bodyQ upSerpFail).response.success = some false :=
  serp_failure_is_hard_failure envBoth bodyQ upSerpFail "network down" (by decide) (by decide)
    rfl

/-- Sample whitespace-only request body. -/
def bodyWs : Body := { query := some (.jstr "   ") }

/-- Claim C3 counterexample: a whitespace-only query is a truthy string,
so the validation test of the source accepts it and the request proceeds
to the search provider instead of returning the 400 validation error. -/
theorem whitespace_query_not_rejected :
    queryValid bodyWs.query = true ∧
    (POST envBoth bodyWs upAllOk).response.status = 200 ∧
    (POST envBoth bodyWs upAllOk).serpCalled = true := by
  decide

/-- Claim C3 as amended: a request body whose query field is missing,
null, not a string, or the empty string receives the one 400 validation
response before any provider call; a whitespace-only query is not
rejected. The last conjunct records that among strings exactly the empty
string fails validation. -/
theorem invalid_query_rejected (env : Env) (body : Body) (up : UpstreamOutcomes)
    (sW : String)
    (hq : queryValid body.query = false) :
    ((POST env body up).response = validationErrorResponse ∧
      (POST env body up).serpCalled = false ∧
      (POST env body up).aiCalled = false) ∧
    (queryValid (some (.jstr sW)) = false ↔ sW = "") := by
  constructor
  · simp [POST, hq]
  · simp [queryValid]

/-- Sample request body with a numeric query field. -/
def bodyNum : Body := { query := some (.jnum 123) }

/-- Witness for the amended claim C3 at a concrete input. -/
theorem invalid_query_rejected_witness :
    (((POST envBoth bodyNum upAllOk).response = validationErrorResponse ∧
      (POST envBoth bodyNum upAllOk).serpCalled = false ∧
      (POST envBoth bodyNum upAllOk).aiCalled = false) ∧
    (queryValid (some (.jstr "x")) = false ↔ "x" = "")) :=
  invalid_query_rejected envBoth bodyNum upAllOk "x" (by decide)

/-- Claim C5: with a valid query, an absent search key fails the request
with the 500 configuration error before any upstream call, while an
absent AI key alone yields a 200 degraded response with both generator
calls skipped, fallback insight values, and the non-empty warning
string. -/
theorem credential_gating (env : Env) (body : Body) (up : UpstreamOutcomes)
    (s : SerpAPIResponse)
    (hq : queryValid body.query = true) :
    (keyConfigured env.serpApiKey = false →
      (POST env body up).response = configErrorResponse ∧
      (POST env body up).serpCalled = false ∧
      (POST env body up).aiCalled = false) ∧
    (keyConfigured env.serpApiKey = true → keyConfigured env.openaiApiKey = false →
      up.serp = .ok s →
      (POST env body up).aiCalled = false ∧
      (POST env body up).response.status = 200 ∧
      (POST env body up).response.success = some true ∧
      (POST env body up).response.data =
        some
          { practicalGuides := []
            theoreticalInsight := ""
            contradictoryTake := ""
            marketInsights := fallbackMarketInsights
            recommendedWebsites := s.websiteRecommendations
            relatedSearches := []
            searchMetadata := s.searchMetadata
            status :=
              { phase := "complete", message := "Search complete (AI skipped)", progress := 100 } } ∧
      (POST env body up).response.warnings =
        some "OpenAI API key not configured. AI insights are skipped.") := by
  constructor
  · intro hno
    simp [POST, hq, hno]
  · intro hs hai hok
    simp [POST, hq, hs, hai, hok, fallbackCareerInsights]

/-- Witness for claim C5 at concrete inputs: one run without the search
key, one run without the AI key. -/
theorem credential_gating_witness :
    ((POST envNoSerp bodyQ upAllOk).response = configErrorResponse ∧
      (POST envNoSerp bodyQ upAllOk).serpCalled = false ∧
      (POST envNoSerp bodyQ upAllOk).aiCalled = false) ∧
    ((POST envNoAI bodyQ upAIFail).aiCalled = false ∧
      (POST envNoAI bodyQ upAIFail).response.status = 200 ∧
      (POST envNoAI bodyQ upAIFail).response.success = some true ∧
      (POST envNoAI bodyQ upAIFail).response.data =
        some
          { practicalGuides := []
            theoreticalInsight := ""
            contradictoryTake := ""
            marketInsights := fallbackMarketInsights
            recommendedWebsites := serpOkEx.websiteRecommendations
            relatedSearches := []
            searchMetadata := serpOkEx.searchMetadata
            status :=
              { phase := "complete", message := "Search complete (AI skipped)", progress := 100 } } ∧
      (POST envNoAI bodyQ upAIFail).response.warnings =
        some "OpenAI API key not configured. AI insights are skipped.") :=
  ⟨(credential_gating envNoSerp bodyQ upAllOk serpOkEx (by decide)).1 rfl,
    (credential_gating envNoAI bodyQ upAIFail serpOkEx (by decide)).2 rfl rfl rfl⟩

/-- A value just stored in the cache is found by a lookup under the same
key within the TTL window. -/
theorem cacheGet_cacheSet_hit (c : List CacheEntry) (k : List Char)
    (v : CachedSearchResponse) (t now : Nat) (h : now < t + cacheTTL) :
    (cacheGet (cacheSet c k v t) k now).1 = some v := by
  unfold cacheGet cacheSet
  rw [show cacheMax = 99 + 1 from rfl, List.take_succ_cons]
  simp [List.find?, h]

/-- Claim C4: a repeat of a query equal up to trimming and lower-casing,
within the one-hour TTL of a successful first call, is answered from the
cache: same data payload, cached true, and no provider invocation; the
first call is flagged cached false. -/
theorem cached_query_idempotent
    (cache0 : List CacheEntry) (s1 s2 : String) (t1 t2 : Nat)
    (o1 o2 : CachedOracle) (ins : CachedInsights)
    (h1 : s1 ≠ "") (h2 : s2 ≠ "")
    (hkey : cacheKeyOf s2 = cacheKeyOf s1)
    (hmiss : (cacheGet cache0 (cacheKeyOf s1) t1).1 = none)
    (hins : o1.insights = .ok ins)
    (hwin : t2 < t1 + cacheTTL) :
    (cachedPOST cache0 { query := some (.jstr s1) } t1 o1).response.cached = some false ∧
    (cachedPOST (cachedPOST cache0 { query := some (.jstr s1) } t1 o1).cache
        { query := some (.jstr s2) } t2 o2).response.cached = some true ∧
    (cachedPOST (cachedPOST cache0 { query := some (.jstr s1) } t1 o1).cache
        { query := some (.jstr s2) } t2 o2).response.data =
      (cachedPOST cache0 { query := some (.jstr s1) } t1 o1).response.data ∧
    (cachedPOST (cachedPOST cache0 { query := some (.jstr s1) } t1 o1).cache
        { query := some (.jstr s2) } t2 o2).providerCalls = false := by
  have hb1 : (s1 == "") = false := by simp [h1]
  have hb2 : (s2 == "") = false := by simp [h2]
  have hstep1 : cachedPOST cache0 { query := some (.jstr s1) } t1 o1 =
      { response :=
          { status := 200, success := some true, error := none
            data := some (builtResponse o1 ins), cached := some false }
        cache := cacheSet (cacheGet cache0 (cacheKeyOf s1) t1).2 (cacheKeyOf s1)
          (builtResponse o1 ins) t1
        providerCalls := true } := by
    simp [cachedPOST, hb1, hmiss, hins]
  have hhit : (cacheGet (cacheSet (cacheGet cache0 (cacheKeyOf s1) t1).2 (cacheKeyOf s1)
      (builtResponse o1 ins) t1) (cacheKeyOf s1) t2).1 = some (builtResponse o1 ins) :=
    cacheGet_cacheSet_hit _ _ _ _ _ hwin
  rw [hstep1]
  have hstep2 : cachedPOST (cacheSet (cacheGet cache0 (cacheKeyOf s1) t1).2 (cacheKeyOf s1)
        (builtResponse o1 ins) t1) { query := some (.jstr s2) } t2 o2 =
      { response :=
          { status := 200, success := some true, error := none
            data := some (builtResponse o1 ins), cached := some true }
        cache := (cacheGet (cacheSet (cacheGet cache0 (cacheKeyOf s1) t1).2 (cacheKeyOf s1)
          (builtResponse o1 ins) t1) (cacheKeyOf s1) t2).2
        providerCalls := false } := by
    simp [cachedPOST, hb2, hkey, hhit]
  rw [hstep2]
  exact ⟨rfl, rfl, rfl, rfl⟩

/-- Sample insights for the cached route. -/
def insEx : CachedInsights :=
  { practicalGuides := ["Learn the fundamentals"]
    theoreticalInsight := "Depth beats breadth"
    contradictoryTake := "Breadth can beat depth" }

/-- Sample oracle for the first cached-route call. -/
def oracleOk : CachedOracle := { websites := .ok [], insights := .ok insEx }

/-- Sample oracle for the second cached-route call; both tasks fail,
showing the providers are not consulted on a cache hit. -/
def oracleDead : CachedOracle := { websites := .error (), insights := .error () }

/-- Witness for claim C4 at a concrete input. -/
theorem cached_query_idempotent_witness :
    (cachedPOST [] { query := some (.jstr "Engineer ") } 0 oracleOk).response.cached =
      some false ∧
    (cachedPOST (cachedPOST [] { query := some (.jstr "Engineer ") } 0 oracleOk).cache
        { query := some (.jstr " ENGINEER") } 1000 oracleDead).response.cached = some true ∧
    (cachedPOST (cachedPOST [] { query := some (.jstr "Engineer ") } 0 oracleOk).cache
        { query := some (.jstr " ENGINEER") } 1000 oracleDead).response.data =
      (cachedPOST [] { query := some (.jstr "Engineer ") } 0 oracleOk).response.data ∧
    (cachedPOST (cachedPOST [] { query := some (.jstr "Engineer ") } 0 oracleOk).cache
        { query := some (.jstr " ENGINEER") } 1000 oracleDead).providerCalls = false :=
  cached_query_idempotent [] "Engineer " " ENGINEER" 0 1000 oracleOk oracleDead insEx
    (by decide) (by decide) (by decide) rfl rfl (by decide)

end CareerSearch
